import Mathlib

/-!
Shallow embedding of the docwise browser client's core logic:
the session lifecycle (App.js: handleLogin / handleLogout, AuthCallback.jsx:
processSessionId) and the analysis submission workflow
(Dashboard.jsx: handleFileSelect / handleAnalyzeDocument, the input-mode
switch buttons, and the analyze button's disabled guard).

JavaScript strings are modelled as Lean `String`; the JavaScript string
operations used by the code (`toLowerCase`, `endsWith`, `trim`, template
literal coercion of `null`) are written out over the character list so that
they evaluate inside the kernel.
-/

/-- JavaScript `s.toLowerCase()` (ASCII case folding, which is all the code
relies on for the `.pdf` check). -/
def jsToLowerCase (s : String) : String :=
  String.mk (s.data.map Char.toLower)

/-- JavaScript `s.endsWith(suffix)`. -/
def jsEndsWith (s suffix : String) : Bool :=
  suffix.data.isSuffixOf s.data

/-- JavaScript `s.trim()`: strip leading and trailing whitespace. -/
def jsTrim (s : String) : String :=
  String.mk (((s.data.dropWhile Char.isWhitespace).reverse.dropWhile
    Char.isWhitespace).reverse)

/-- JavaScript template-literal coercion of a nullable string:
`null` renders as the four-character string "null". -/
def jsTemplate : Option String → String
  | none => "null"
  | some s => s

/-- JSON string escaping as performed by `JSON.stringify` on the
identifier-like strings the dashboard passes (quote and backslash). -/
def jsonEscape (s : String) : String :=
  String.join (s.data.map fun c =>
    if c = '"' then "\\\"" else if c = '\\' then "\\\\" else String.singleton c)

/-- A JSON string literal: `jsonEscape` surrounded by quotes. -/
def jsonStr (s : String) : String :=
  "\"" ++ jsonEscape s ++ "\""

/-- Input modes of the analyze form: `'upload'` or `'text'`
(Dashboard.jsx `inputMode` state). -/
inductive InputMode
  | upload
  | text
deriving DecidableEq, Repr

/-- The `analysisForm` state object of Dashboard.jsx:
`{ prompt_id: '', ai_model: 'gpt-5' }` initially. -/
structure AnalysisForm where
  prompt_id : String
  ai_model : String
deriving DecidableEq, Repr

/-- One stored analysis as rendered by the history tab
(fields read from the server's response objects). -/
structure AnalysisRecord where
  id : String
  document_name : String
  prompt_id : String
  ai_model : String
  response : String
deriving DecidableEq, Repr

/-- `JSON.stringify(analysisForm)`: a JSON object literal with the keys in
insertion order `prompt_id`, `ai_model`. -/
def analysisFormJson (f : AnalysisForm) : String :=
  "\x7b" ++ jsonStr "prompt_id" ++ ":" ++ jsonStr f.prompt_id ++ ","
    ++ jsonStr "ai_model" ++ ":" ++ jsonStr f.ai_model ++ "\x7d"

/-- The Dashboard component's state relevant to the analysis workflow
(`useState` hooks in Dashboard.jsx). A selected file is modelled by its
name; `selectedFile = none` is JavaScript `null`. -/
structure DashState where
  activeTab : String
  selectedFile : Option String
  analysisForm : AnalysisForm
  analyzing : Bool
  inputMode : InputMode
  textInput : String
  analyses : List AnalysisRecord
deriving DecidableEq, Repr

/-- Initial Dashboard state from the `useState` initialisers. -/
def initialDashState : DashState :=
  { activeTab := "prompts"
    selectedFile := none
    analysisForm := { prompt_id := "", ai_model := "gpt-5" }
    analyzing := false
    inputMode := InputMode.upload
    textInput := ""
    analyses := [] }

/-- Result of a handler that may surface a toast message. -/
structure FileSelectResult where
  state : DashState
  notice : Option String
deriving DecidableEq, Repr

/-- Dashboard.jsx `handleFileSelect`: takes `e.target.files[0]` (may be
absent); rejects a name not ending in `.pdf` after lowercasing with a toast
and no state change, otherwise stores the file as the selection. -/
def handleFileSelect (s : DashState) (file : Option String) : FileSelectResult :=
  match file with
  | none => { state := s, notice := none }
  | some name =>
    if jsEndsWith (jsToLowerCase name) ".pdf" = false then
      { state := s, notice := some "Please select a PDF file" }
    else
      { state := { s with selectedFile := some name }, notice := none }

/-- The JSON body posted to `/documents/analyze-text` in text mode:
`{ ...analysisForm, text_content: textInput, document_name: 'Text Input' }`. -/
structure TextAnalysisBody where
  prompt_id : String
  ai_model : String
  text_content : String
  document_name : String
deriving DecidableEq, Repr

/-- A network request issued by `handleAnalyzeDocument`: either the
multipart POST to `/documents/analyze` (fields `file` and `analysis_data`,
the latter a JSON string), or the JSON POST to `/documents/analyze-text`. -/
inductive ApiRequest
  | analyzeUpload (file : String) (analysis_data : String)
  | analyzeText (body : TextAnalysisBody)
deriving DecidableEq, Repr

/-- The URL path each request is posted to. -/
def ApiRequest.url : ApiRequest → String
  | analyzeUpload _ _ => "/documents/analyze"
  | analyzeText _ => "/documents/analyze-text"

/-- Result of running the synchronous prefix of `handleAnalyzeDocument`:
the updated component state, the network request issued (if any), and the
validation toast surfaced (if any). -/
structure SubmitStartResult where
  state : DashState
  request : Option ApiRequest
  notice : Option String
deriving DecidableEq, Repr

/-- Dashboard.jsx `handleAnalyzeDocument`, lines 107-148: the validation
checks and, when they pass, `setAnalyzing(true)` and construction of the
mode-dependent request. The two `if` statements mirror the source:
upload mode requires a selected file and a prompt id, text mode requires a
text body that is non-empty after `trim()` and a prompt id (empty string
and `null` are falsy). -/
def handleAnalyzeDocumentStart (s : DashState) : SubmitStartResult :=
  if s.inputMode = InputMode.upload ∧
      (s.selectedFile = none ∨ s.analysisForm.prompt_id = "") then
    { state := s, request := none, notice := some "Please select a file and prompt" }
  else if s.inputMode = InputMode.text ∧
      (jsTrim s.textInput = "" ∨ s.analysisForm.prompt_id = "") then
    { state := s, request := none
      notice := some "Please enter text content and select a prompt" }
  else
    let s2 : DashState := { s with analyzing := true }
    match s.inputMode with
    | InputMode.upload =>
      { state := s2
        request := some (ApiRequest.analyzeUpload (s.selectedFile.getD "")
          (analysisFormJson s.analysisForm))
        notice := none }
    | InputMode.text =>
      { state := s2
        request := some (ApiRequest.analyzeText
          { prompt_id := s.analysisForm.prompt_id
            ai_model := s.analysisForm.ai_model
            text_content := s.textInput
            document_name := "Text Input" })
        notice := none }

/-- Outcome of the in-flight analysis request: success (carrying the list
returned by the follow-up `loadAnalyses()` refetch, which is what the code
stores) or failure (carrying `error.response?.data?.detail` when present). -/
inductive ApiOutcome
  | success (reloaded : List AnalysisRecord)
  | failure (detail : Option String)
deriving DecidableEq, Repr

/-- Result of the asynchronous tail of `handleAnalyzeDocument`: final state
plus the toast surfaced. -/
structure SubmitCompleteResult where
  state : DashState
  notice : String
deriving DecidableEq, Repr

/-- Dashboard.jsx `handleAnalyzeDocument`, lines 150-161: the success
branch clears the file and text, resets `analysisForm` to its initial
value, stores the refetched analyses list and switches to the history tab;
the catch branch surfaces the server detail or the generic fallback; the
finally branch sets `analyzing` to false in both cases. -/
def handleAnalyzeDocumentComplete (s : DashState) (o : ApiOutcome) :
    SubmitCompleteResult :=
  match o with
  | ApiOutcome.success reloaded =>
    { state := { s with
        selectedFile := none
        textInput := ""
        analysisForm := { prompt_id := "", ai_model := "gpt-5" }
        analyses := reloaded
        activeTab := "analyses"
        analyzing := false }
      notice := "Content analyzed successfully!" }
  | ApiOutcome.failure detail =>
    { state := { s with analyzing := false }
      notice := detail.getD "Analysis failed" }

/-- The analyze button's `disabled` expression (Dashboard.jsx lines
518-521): disabled while `analyzing` or while the mode-dependent validation
precondition fails. -/
def analyzeBtnDisabled (s : DashState) : Bool :=
  s.analyzing
    || (s.inputMode = InputMode.upload ∧
        (s.selectedFile = none ∨ s.analysisForm.prompt_id = ""))
    || (s.inputMode = InputMode.text ∧
        (jsTrim s.textInput = "" ∨ s.analysisForm.prompt_id = ""))

/-- A user press of the analyze button: a disabled button fires no submit
event, otherwise the form's `onSubmit` runs `handleAnalyzeDocument`. -/
def submitClick (s : DashState) : SubmitStartResult :=
  if analyzeBtnDisabled s then
    { state := s, request := none, notice := none }
  else
    handleAnalyzeDocumentStart s

/-- Number of network requests issued by one submit attempt. -/
def issuedCount (r : SubmitStartResult) : Nat :=
  if r.request.isSome then 1 else 0

/-- The upload-mode switch button's onClick (Dashboard.jsx line 385):
`setInputMode('upload'); setTextInput(''); setSelectedFile(null)`. -/
def switchToUpload (s : DashState) : DashState :=
  { s with inputMode := InputMode.upload, textInput := "", selectedFile := none }

/-- The text-mode switch button's onClick (Dashboard.jsx line 399):
`setInputMode('text'); setSelectedFile(null); setTextInput('')`. -/
def switchToText (s : DashState) : DashState :=
  { s with inputMode := InputMode.text, selectedFile := none, textInput := "" }

/-- User interactions with the analyze form's input controls. The file
input is rendered only in upload mode and the textarea only in text mode
(Dashboard.jsx lines 415 and 450), so their change events exist only in the
matching mode. -/
inductive UiEvent
  | chooseFile (file : Option String)
  | editText (t : String)
  | clickUploadMode
  | clickTextMode
deriving DecidableEq, Repr

/-- One step of the analyze form's event loop. `chooseFile` runs
`handleFileSelect` and `editText` runs the textarea's
`onChange` (`setTextInput(e.target.value)`); each is reachable only while
its control is rendered. -/
def uiStep (s : DashState) : UiEvent → DashState
  | UiEvent.chooseFile f =>
    if s.inputMode = InputMode.upload then (handleFileSelect s f).state else s
  | UiEvent.editText t =>
    if s.inputMode = InputMode.text then { s with textInput := t } else s
  | UiEvent.clickUploadMode => switchToUpload s
  | UiEvent.clickTextMode => switchToText s

/-- User identity as returned by the auth endpoints. -/
structure UserData where
  id : String
  name : String
deriving DecidableEq, Repr

/-- The App component's session state: in-memory `user` and
`sessionToken`, the value of the `session_token` cookie (none when cleared
or never set), and axios's default `Authorization` header (none when
deleted or never set). -/
structure AppState where
  user : Option UserData
  sessionToken : Option String
  cookie : Option String
  authHeader : Option String
deriving DecidableEq, Repr

/-- Initial App state: no user, no token, no cookie, no header. -/
def initialAppState : AppState :=
  { user := none, sessionToken := none, cookie := none, authHeader := none }

/-- App.js `handleLogin(userData, token)`: stores the user and token,
writes the cookie `session_token=${token}` and the default header
`Bearer ${token}` — each through a template literal, so a `null` token is
coerced to the string "null". -/
def handleLogin (s : AppState) (userData : UserData) (token : Option String) :
    AppState :=
  { s with
    user := some userData
    sessionToken := token
    cookie := some (jsTemplate token)
    authHeader := some ("Bearer " ++ jsTemplate token) }

/-- Result of one `handleLogout` invocation: the state after the
unconditional teardown, and the number of POSTs to `/auth/logout` the
invocation issued. -/
structure LogoutResult where
  state : AppState
  requests : Nat
deriving DecidableEq, Repr

/-- App.js `handleLogout`: always POSTs to `/auth/logout` (a failure is
caught and only logged), then unconditionally clears user, token, cookie
(by writing an already-expired cookie) and the default header. -/
def handleLogout (s : AppState) : LogoutResult :=
  { state := { s with
      user := none
      sessionToken := none
      cookie := none
      authHeader := none }
    requests := 1 }

/-- Two successive `handleLogout` calls: final state and the total number
of logout requests issued. -/
def logoutTwice (s : AppState) : AppState × Nat :=
  let r1 := handleLogout s
  let r2 := handleLogout r1.state
  (r2.state, r1.requests + r2.requests)

/-- The regex scan `fragment.match(/session_id=([^&]+)/)` over the
character list: at each position, if `session_id=` starts here and at least
one non-`&` character follows it, capture the run of non-`&` characters;
otherwise resume the scan one character further on. -/
def scanSessionId : List Char → Option String
  | [] => none
  | c :: tl =>
    if ("session_id=".data).isPrefixOf (c :: tl) then
      let v := ((c :: tl).drop 11).takeWhile fun d => d ≠ '&'
      if v.isEmpty then scanSessionId tl else some (String.mk v)
    else
      scanSessionId tl

/-- AuthCallback.jsx: extraction of the one-time `session_id` from the URL
fragment. -/
def parseSessionId (fragment : String) : Option String :=
  scanSessionId fragment.data

/-- Outcomes of the network calls `processSessionId` may make: the
`POST /auth/session-data` exchange (returning `{user, session_token}` on
success) and the `GET /auth/me` probe (returning the user on success). -/
structure CallbackEnv where
  exchange : Option (UserData × String)
  whoAmI : Option UserData

/-- What `processSessionId` does to the client: completes a login (with
the App state after `handleLogin`, and whether the URL fragment was cleared
by a history replace) or navigates back to the landing page. -/
inductive CallbackOutcome
  | loggedIn (state : AppState) (fragmentCleared : Bool)
  | redirectToLanding
deriving DecidableEq, Repr

/-- AuthCallback.jsx `processSessionId`: with a `session_id` in the
fragment, exchange it via `/auth/session-data`; on success clear the
fragment and call `onLogin(user, session_token)`; on failure redirect to
`/`. Without a `session_id`, probe `/auth/me`; on success call
`onLogin(data, null)` (no fragment clearing); on failure redirect to `/`. -/
def processSessionId (s : AppState) (fragment : String) (env : CallbackEnv) :
    CallbackOutcome :=
  match parseSessionId fragment with
  | some _ =>
    match env.exchange with
    | some (u, tok) => CallbackOutcome.loggedIn (handleLogin s u (some tok)) true
    | none => CallbackOutcome.redirectToLanding
  | none =>
    match env.whoAmI with
    | some u => CallbackOutcome.loggedIn (handleLogin s u none) false
    | none => CallbackOutcome.redirectToLanding

/-- A configured upload-mode state: `report.pdf` selected, prompt `p1`. -/
def uploadReadyState : DashState :=
  { initialDashState with
      selectedFile := some "report.pdf"
      analysisForm := { prompt_id := "p1", ai_model := "gpt-5" } }

/-- The request `handleAnalyzeDocument` issues from `uploadReadyState`. -/
def uploadReq : ApiRequest :=
  ApiRequest.analyzeUpload "report.pdf"
    (analysisFormJson { prompt_id := "p1", ai_model := "gpt-5" })

/-- The upload-ready state with a submission already in flight. -/
def busyState : DashState :=
  { uploadReadyState with analyzing := true }

/-- A text-mode state whose body is whitespace only (empty after trim). -/
def emptyTextState : DashState :=
  { initialDashState with
      inputMode := InputMode.text
      analysisForm := { prompt_id := "p1", ai_model := "gpt-5" }
      textInput := "   " }

/-- A configured text-mode state with the non-default model selected. -/
def claudeReadyState : DashState :=
  { initialDashState with
      inputMode := InputMode.text
      textInput := "body"
      analysisForm := { prompt_id := "p2", ai_model := "claude-4" } }

/-- A server-side analysis record used in concrete scenarios. -/
def reloadedRecord : AnalysisRecord :=
  { id := "a1", document_name := "Text Input", prompt_id := "p2"
    ai_model := "claude-4", response := "ok" }

/-- A configured state that is not in the Submitting state
(`analyzing = false`), used to deliver a late response to. -/
def staleDashState : DashState :=
  { initialDashState with
      selectedFile := some "report.pdf"
      analysisForm := { prompt_id := "p1", ai_model := "claude-4" }
      analyzing := false }

/-- An authenticated App state with an active bearer credential. -/
def authedAppState : AppState :=
  { user := some { id := "u1", name := "A" }
    sessionToken := some "tok1"
    cookie := some "tok1"
    authHeader := some "Bearer tok1" }

/-- The user returned by a successful who-am-I probe. -/
def userU1 : UserData := { id := "u1", name := "A" }

/-- The per-mode exclusivity invariant of the analyze form: in upload mode
the text body is empty, in text mode no file is selected. -/
def modeConsistent (s : DashState) : Prop :=
  (s.inputMode = InputMode.upload → s.textInput = "") ∧
  (s.inputMode = InputMode.text → s.selectedFile = none)

theorem handleFileSelect_frame (s : DashState) (f : Option String) :
    (handleFileSelect s f).state.textInput = s.textInput ∧
    (handleFileSelect s f).state.inputMode = s.inputMode := by
  cases f with
  | none => exact ⟨rfl, rfl⟩
  | some name =>
    simp only [handleFileSelect]
    constructor <;> (split <;> rfl)

theorem uiStep_modeConsistent (s : DashState) (e : UiEvent)
    (h : modeConsistent s) : modeConsistent (uiStep s e) := by
  obtain ⟨h1, h2⟩ := h
  unfold modeConsistent
  cases e with
  | chooseFile f =>
    simp only [uiStep]
    split
    next hm =>
      obtain ⟨ht, hmode⟩ := handleFileSelect_frame s f
      refine ⟨fun _ => ?_, fun hx => ?_⟩
      · rw [ht]; exact h1 hm
      · rw [hmode, hm] at hx; exact absurd hx (by decide)
    next => exact ⟨h1, h2⟩
  | editText t =>
    simp only [uiStep]
    split
    next hm =>
      refine ⟨fun hx => ?_, fun _ => h2 hm⟩
      simp only [DashState.inputMode] at hx
      rw [hm] at hx
      exact absurd hx (by decide)
    next => exact ⟨h1, h2⟩
  | clickUploadMode =>
    refine ⟨fun _ => rfl, fun hx => ?_⟩
    simp [uiStep, switchToUpload] at hx
  | clickTextMode =>
    refine ⟨fun hx => ?_, fun _ => rfl⟩
    simp [uiStep, switchToText] at hx

theorem foldl_modeConsistent (es : List UiEvent) (s : DashState)
    (h : modeConsistent s) : modeConsistent (es.foldl uiStep s) := by
  induction es generalizing s with
  | nil => exact h
  | cons e tl ih => exact ih (uiStep s e) (uiStep_modeConsistent s e h)

theorem modeConsistent_atMostOne (s : DashState) (h : modeConsistent s) :
    s.selectedFile = none ∨ s.textInput = "" := by
  obtain ⟨h1, h2⟩ := h
  cases hm : s.inputMode with
  | upload => exact Or.inr (h1 hm)
  | text => exact Or.inl (h2 hm)

theorem analyzeStart_cases (s : DashState) :
    ((handleAnalyzeDocumentStart s).state = s ∧
      (handleAnalyzeDocumentStart s).request = none) ∨
    (handleAnalyzeDocumentStart s).state = { s with analyzing := true } := by
  unfold handleAnalyzeDocumentStart
  split
  · exact Or.inl ⟨rfl, rfl⟩
  · split
    · exact Or.inl ⟨rfl, rfl⟩
    · split <;> exact Or.inr rfl

theorem submitClick_cases (s : DashState) :
    ((submitClick s).state = s ∧ (submitClick s).request = none) ∨
    (submitClick s).state = { s with analyzing := true } := by
  unfold submitClick
  split
  · exact Or.inl ⟨rfl, rfl⟩
  · exact analyzeStart_cases s

theorem submitClick_disabled (t : DashState)
    (hd : analyzeBtnDisabled t = true) :
    submitClick t = { state := t, request := none, notice := none } := by
  unfold submitClick
  rw [if_pos hd]

/-- C7: For any sequence of selectFile / setTextBody calls interleaved with
input-mode switches starting from the initial Dashboard state, at most one
of the selected file and the text body is non-empty, and immediately after
every mode switch both are empty. -/
theorem C7_input_exclusivity :
    (∀ es : List UiEvent,
      (es.foldl uiStep initialDashState).selectedFile = none ∨
      (es.foldl uiStep initialDashState).textInput = "") ∧
    (∀ s : DashState,
      (uiStep s UiEvent.clickUploadMode).selectedFile = none ∧
      (uiStep s UiEvent.clickUploadMode).textInput = "" ∧
      (uiStep s UiEvent.clickTextMode).selectedFile = none ∧
      (uiStep s UiEvent.clickTextMode).textInput = "") := by
  constructor
  · intro es
    refine modeConsistent_atMostOne _ (foldl_modeConsistent es initialDashState ?_)
    exact ⟨fun _ => rfl, fun hx => by simp [initialDashState] at hx⟩
  · intro s
    exact ⟨rfl, rfl, rfl, rfl⟩

/-- C6: submit is rejected locally, with no state change and no network
request and with a validation notice, whenever no prompt is selected, or
mode is upload with no file selected, or mode is text with a body that is
empty after trimming. -/
theorem C6_validation_rejects (s : DashState)
    (h : s.analysisForm.prompt_id = "" ∨
         (s.inputMode = InputMode.upload ∧ s.selectedFile = none) ∨
         (s.inputMode = InputMode.text ∧ jsTrim s.textInput = "")) :
    (handleAnalyzeDocumentStart s).state = s ∧
    (handleAnalyzeDocumentStart s).request = none ∧
    (handleAnalyzeDocumentStart s).notice.isSome = true := by
  unfold handleAnalyzeDocumentStart
  rcases h with hp | ⟨hm, hf⟩ | ⟨hm, ht⟩
  · cases hm : s.inputMode with
    | upload =>
      rw [if_pos ⟨rfl, Or.inr hp⟩]
      exact ⟨rfl, rfl, rfl⟩
    | text =>
      rw [if_neg fun hc => absurd hc.1 (by decide), if_pos ⟨rfl, Or.inr hp⟩]
      exact ⟨rfl, rfl, rfl⟩
  · rw [if_pos ⟨hm, Or.inl hf⟩]
    exact ⟨rfl, rfl, rfl⟩
  · rw [if_neg fun hc => by rw [hm] at hc; exact absurd hc.1 (by decide),
        if_pos ⟨hm, Or.inl ht⟩]
    exact ⟨rfl, rfl, rfl⟩

/-- C6 witness: a text-mode state with a whitespace-only body is rejected
with no state change, no request, and a notice. -/
theorem C6_validation_rejects_witness :
    (handleAnalyzeDocumentStart emptyTextState).state = emptyTextState ∧
    (handleAnalyzeDocumentStart emptyTextState).request = none ∧
    (handleAnalyzeDocumentStart emptyTextState).notice.isSome = true :=
  C6_validation_rejects emptyTextState (Or.inr (Or.inr ⟨rfl, by decide⟩))

/-- C8: selectFile rejects, with a validation error and no state change,
every file whose lowercased name does not end in ".pdf"; any file whose
lowercased name does end in ".pdf" is stored as the selection, replacing
any prior one. -/
theorem C8_pdf_filter (s : DashState) (name : String) :
    (jsEndsWith (jsToLowerCase name) ".pdf" = false →
      handleFileSelect s (some name) =
        { state := s, notice := some "Please select a PDF file" }) ∧
    (jsEndsWith (jsToLowerCase name) ".pdf" = true →
      handleFileSelect s (some name) =
        { state := { s with selectedFile := some name }, notice := none }) := by
  constructor
  · intro h
    simp [handleFileSelect, h]
  · intro h
    simp [handleFileSelect, h]

/-- C8 witness: "notes.TXT" is rejected without touching the state, while
"Report.PDF" is accepted, replacing the previously selected file. -/
theorem C8_pdf_filter_witness :
    (handleFileSelect uploadReadyState (some "notes.TXT") =
      { state := uploadReadyState, notice := some "Please select a PDF file" }) ∧
    (handleFileSelect uploadReadyState (some "Report.PDF") =
      { state := { uploadReadyState with selectedFile := some "Report.PDF" }
        notice := none }) :=
  ⟨(C8_pdf_filter uploadReadyState "notes.TXT").1 (by decide),
   (C8_pdf_filter uploadReadyState "Report.PDF").2 (by decide)⟩

/-- C10: every failed submission preserves the selected file, the text
body, the prompt/model selection and the input mode, surfaces the server
detail when present and the generic fallback otherwise, and always ends
with the in-flight flag cleared. -/
theorem C10_failure_effects (s : DashState) (detail : Option String) :
    (handleAnalyzeDocumentComplete s (ApiOutcome.failure detail)).state =
      { s with analyzing := false } ∧
    (handleAnalyzeDocumentComplete s (ApiOutcome.failure detail)).state.selectedFile
      = s.selectedFile ∧
    (handleAnalyzeDocumentComplete s (ApiOutcome.failure detail)).state.textInput
      = s.textInput ∧
    (handleAnalyzeDocumentComplete s (ApiOutcome.failure detail)).state.analysisForm
      = s.analysisForm ∧
    (handleAnalyzeDocumentComplete s (ApiOutcome.failure detail)).state.inputMode
      = s.inputMode ∧
    (handleAnalyzeDocumentComplete s (ApiOutcome.failure detail)).state.analyzing
      = false ∧
    (handleAnalyzeDocumentComplete s (ApiOutcome.failure detail)).notice
      = detail.getD "Analysis failed" :=
  ⟨rfl, rfl, rfl, rfl, rfl, rfl, rfl⟩

/-- C2 counterexample: from a text-mode state with prompt "p2" and model
"claude-4" selected, a successful submission does not retain the
prompt/model selection; the form is reset to its defaults. -/
theorem C2_success_counterexample :
    (handleAnalyzeDocumentComplete claudeReadyState
      (ApiOutcome.success [reloadedRecord])).state.analysisForm ≠
    claudeReadyState.analysisForm := by decide

/-- C2 (amended): on every successful submission the history is replaced by
the refetched analyses list, the selected file and text body are cleared,
the input mode is retained, and the prompt/model selection is reset to the
defaults (no prompt, model "gpt-5") rather than retained. -/
theorem C2_success_effects (s : DashState) (reloaded : List AnalysisRecord) :
    (handleAnalyzeDocumentComplete s (ApiOutcome.success reloaded)).state.selectedFile
      = none ∧
    (handleAnalyzeDocumentComplete s (ApiOutcome.success reloaded)).state.textInput
      = "" ∧
    (handleAnalyzeDocumentComplete s (ApiOutcome.success reloaded)).state.analyses
      = reloaded ∧
    (handleAnalyzeDocumentComplete s (ApiOutcome.success reloaded)).state.inputMode
      = s.inputMode ∧
    (handleAnalyzeDocumentComplete s (ApiOutcome.success reloaded)).state.analysisForm
      = { prompt_id := "", ai_model := "gpt-5" } ∧
    (handleAnalyzeDocumentComplete s (ApiOutcome.success reloaded)).state.analyzing
      = false :=
  ⟨rfl, rfl, rfl, rfl, rfl, rfl⟩

/-- C3 counterexample: two successive logout calls from an authenticated
state issue two POSTs to the logout endpoint, not one. -/
theorem C3_logout_counterexample : ¬ (logoutTwice authedAppState).2 = 1 := by
  decide

/-- C3 (amended): logout is idempotent in its state effect — after one call
(and unchanged after a second) the user, token, cookie and default
Authorization header are all cleared, and calling it again is a state
no-op with no error — but each invocation issues its own network call, so
two calls produce two logout requests. -/
theorem C3_logout_state_idempotent (s : AppState) :
    (handleLogout s).requests = 1 ∧
    (handleLogout (handleLogout s).state).requests = 1 ∧
    (handleLogout (handleLogout s).state).state = (handleLogout s).state ∧
    (handleLogout s).state.user = none ∧
    (handleLogout s).state.sessionToken = none ∧
    (handleLogout s).state.cookie = none ∧
    (handleLogout s).state.authHeader = none ∧
    (logoutTwice s).2 = 2 :=
  ⟨rfl, rfl, rfl, rfl, rfl, rfl, rfl, rfl⟩

/-- C5 counterexample: a completed success response delivered to a
configured state that is not in the Submitting state is not discarded; it
mutates the state. -/
theorem C5_stale_counterexample :
    ¬ (handleAnalyzeDocumentComplete staleDashState
        (ApiOutcome.success [reloadedRecord])).state = staleDashState := by
  decide

/-- C5 (amended): the client performs no stale-response detection: the
completion handler behaves identically whatever the current value of the
in-flight flag — a late response to a superseded request would be processed
and would mutate state, not be silently discarded. -/
theorem C5_no_stale_detection (s : DashState) (o : ApiOutcome) (b : Bool) :
    handleAnalyzeDocumentComplete { s with analyzing := b } o =
      handleAnalyzeDocumentComplete s o := by
  cases o <;> rfl

/-- C1: a submit while already in flight is rejected by the disabled
analyze button with no state change and no request, and a submit that does
issue a request leaves the client in the in-flight state, so a second rapid
submit issues nothing — exactly one request in total for the two calls. -/
theorem C1_single_flight (s : DashState) :
    (s.analyzing = true →
      submitClick s = { state := s, request := none, notice := none }) ∧
    (∀ r : ApiRequest, (submitClick s).request = some r →
      (submitClick (submitClick s).state).request = none ∧
      issuedCount (submitClick s) +
        issuedCount (submitClick (submitClick s).state) = 1) := by
  constructor
  · intro h
    exact submitClick_disabled s (by simp [analyzeBtnDisabled, h])
  · intro r h
    have ha : (submitClick s).state.analyzing = true := by
      rcases submitClick_cases s with ⟨_, hnone⟩ | hstate
      · rw [hnone] at h; cases h
      · rw [hstate]
    have h2 : submitClick (submitClick s).state =
        { state := (submitClick s).state, request := none, notice := none } :=
      submitClick_disabled _ (by simp [analyzeBtnDisabled, ha])
    refine ⟨by rw [h2], ?_⟩
    rw [h2]
    simp [issuedCount, h]

/-- C1 witness: with a submission in flight the click is a no-op; from a
ready state the first click issues the upload request and a second
immediate click issues nothing. -/
theorem C1_single_flight_witness :
    busyState.analyzing = true ∧
    submitClick busyState = { state := busyState, request := none, notice := none } ∧
    (submitClick uploadReadyState).request = some uploadReq ∧
    (submitClick (submitClick uploadReadyState).state).request = none :=
  ⟨rfl, (C1_single_flight busyState).1 rfl, by decide,
   ((C1_single_flight uploadReadyState).2 uploadReq (by decide)).1⟩

/-- C9: every request issued by submit is, in upload mode, a multipart POST
to /documents/analyze carrying the selected file and the JSON string of
the prompt/model form under analysis_data, and in text mode a JSON POST to
/documents/analyze-text carrying prompt_id, ai_model, the stored text body
as text_content, and document_name "Text Input". -/
theorem C9_payload (s : DashState) (r : ApiRequest)
    (h : (handleAnalyzeDocumentStart s).request = some r) :
    (s.inputMode = InputMode.upload →
      r = ApiRequest.analyzeUpload (s.selectedFile.getD "")
            (analysisFormJson s.analysisForm) ∧
      r.url = "/documents/analyze") ∧
    (s.inputMode = InputMode.text →
      r = ApiRequest.analyzeText
            { prompt_id := s.analysisForm.prompt_id
              ai_model := s.analysisForm.ai_model
              text_content := s.textInput
              document_name := "Text Input" } ∧
      r.url = "/documents/analyze-text") := by
  unfold handleAnalyzeDocumentStart at h
  split at h
  · cases h
  · split at h
    · cases h
    · cases hm : s.inputMode with
      | upload =>
        rw [hm] at h
        simp only [Option.some.injEq] at h
        refine ⟨fun _ => ⟨h.symm, by rw [← h]; rfl⟩, fun hx => ?_⟩
        exact absurd hx (by decide)
      | text =>
        rw [hm] at h
        simp only [Option.some.injEq] at h
        refine ⟨fun hx => ?_, fun _ => ⟨h.symm, by rw [← h]; rfl⟩⟩
        exact absurd hx (by decide)

/-- C9 witness: the ready upload state issues exactly the multipart request
with file "report.pdf" and the serialized form, posted to
/documents/analyze. -/
theorem C9_payload_witness :
    (handleAnalyzeDocumentStart uploadReadyState).request = some uploadReq ∧
    (uploadReadyState.inputMode = InputMode.upload →
      uploadReq = ApiRequest.analyzeUpload (uploadReadyState.selectedFile.getD "")
          (analysisFormJson uploadReadyState.analysisForm) ∧
      uploadReq.url = "/documents/analyze") :=
  ⟨by decide, (C9_payload uploadReadyState uploadReq (by decide)).1⟩

/-- C4 (code bug): with no session_id in the fragment the callback falls
back to the who-am-I probe and, on success, passes the user with a null
token to handleLogin — which installs the header "Bearer null" and the
cookie value "null" via template-literal coercion, even though the
in-memory token stays none; the spec's intended behavior is that no header
and no cookie be installed on this path. -/
theorem C4_null_token_installed :
    processSessionId initialAppState ""
        { exchange := none, whoAmI := some userU1 } =
      CallbackOutcome.loggedIn
        { user := some userU1
          sessionToken := none
          cookie := some "null"
          authHeader := some "Bearer null" } false := by
  decide
